import Mathlib

/-!
Verification of the Deployment Assignment & Background Execution subsystem
(`server/graphman/src/resolvers/deployment_mutation.rs`).

The resolver orchestration (`pause`, `resume`, `restart`, `unassign`,
`reassign` on `DeploymentMutation`) is embedded directly from the source.
The collaborator operations it calls (`pause::run`, `resume::run`,
`unassign::run`, `reassign::run`, `restart::run_in_background`,
`NodeId::new`, the catalog mirror) live outside the provided source tree
and are modelled from the spec, as marked on each definition.
-/

namespace Graphman

/-- The state an individual deployment carries in the assignment store:
its currently assigned node (at most one node per deployment) and the
paused flag. Pause and resume change only the flag; assignment operations
change only the node. -/
structure DeploymentState where
  assignedNode : Option String
  paused : Bool
deriving DecidableEq, Repr

/-- The assignment store: a finite map from canonical deployment ids to
their state. A deployment "resolves" exactly when it is present. The core
never creates or destroys deployments. -/
abbrev Store := List (Nat × DeploymentState)

/-- Look up a deployment by canonical id. `none` means the selector does
not resolve (`NotFound`). -/
def storeFind : Store → Nat → Option DeploymentState
  | [], _ => none
  | (k, v) :: rest, d => if k = d then some v else storeFind rest d

/-- Overwrite the state of an existing deployment; ids that are not
present are left untouched (this core never registers deployments). -/
def storeSet : Store → Nat → DeploymentState → Store
  | [], _, _ => []
  | (k, v) :: rest, d, st =>
    if k = d then (k, st) :: rest else (k, v) :: storeSet rest d st

/-- The error taxonomy of the mutation engine. `StoreError` carries a
read or store error from an external collaborator, propagated verbatim. -/
inductive GraphmanError where
  | NotFound
  | AlreadyPaused
  | NotPaused
  | InvalidNodeId (message : String)
  | StoreError (message : String)
deriving DecidableEq, Repr

/-- The empty-ack response shape shared by pause, resume, unassign and
reassign: it uniformly carries an optional advisory warning string. -/
structure EmptyResponse where
  warning : Option String
deriving DecidableEq, Repr

/-- `EmptyResponse::new`. -/
def EmptyResponse.new (w : Option String) : EmptyResponse := ⟨w⟩

/-- A validated node identity token. -/
structure NodeId where
  token : String
deriving DecidableEq, Repr

/-- Modelled from the spec: the syntactic validation performed by the
external collaborator `NodeId::new` — a node token must be non-empty and
drawn from an implementation-defined charset (taken here as alphanumeric
characters, underscore and hyphen). -/
def validNodeToken (s : String) : Bool :=
  !s.isEmpty && s.data.all (fun c => c.isAlphanum || c = '_' || c = '-')

/-- Modelled from the spec: `NodeId::new` succeeds exactly on tokens that
pass syntactic validation. -/
def NodeId.new (s : String) : Option NodeId :=
  if validNodeToken s then some ⟨s⟩ else none

/-- Modelled from the spec: `pause::run` — transitions the deployment to
paused, failing with `AlreadyPaused` if it is already paused and with
`NotFound` if the deployment does not resolve. -/
def pauseRun (s : Store) (d : Nat) : Except GraphmanError Store :=
  match storeFind s d with
  | none => .error .NotFound
  | some st =>
    if st.paused then .error .AlreadyPaused
    else .ok (storeSet s d { st with paused := true })

/-- Modelled from the spec: `resume::run` — transitions the deployment
from paused to unpaused, failing with `NotPaused` if it is not currently
paused and with `NotFound` if the deployment does not resolve. -/
def resumeRun (s : Store) (d : Nat) : Except GraphmanError Store :=
  match storeFind s d with
  | none => .error .NotFound
  | some st =>
    if st.paused then .ok (storeSet s d { st with paused := false })
    else .error .NotPaused

/-- Modelled from the spec: `unassign::run` — clears the assignment
relation for the deployment; a no-op success when already unassigned,
`NotFound` when the deployment does not resolve. -/
def unassignRun (s : Store) (d : Nat) : Except GraphmanError Store :=
  match storeFind s d with
  | none => .error .NotFound
  | some st => .ok (storeSet s d { st with assignedNode := none })

/-- Modelled from the spec: `reassign::run` — atomically sets the
assignment of the deployment to the given node, overwriting any prior
assignment; `NotFound` when the deployment does not resolve. -/
def reassignRun (s : Store) (d : Nat) (n : NodeId) : Except GraphmanError Store :=
  match storeFind s d with
  | none => .error .NotFound
  | some st => .ok (storeSet s d { st with assignedNode := some n.token })

/-- Modelled from the spec: the catalog mirror — a read-only, possibly
stale replicated view; `assignments` returns the list of deployments the
mirror believes are assigned to a node, or a read error. -/
structure Mirror where
  assignments : String → Except String (List Nat)

/-- The advisory caution string built by the reassign resolver when the
mirror reports exactly one assignment on the target node
(`deployment_mutation.rs` line 102). -/
def reassignWarning (node : String) : String :=
  "warning: this is the only deployment assigned to \x27" ++ node ++
    "\x27. Are you sure it is spelled correctly?"

/-- The error message attached to a rejected node token
(`deployment_mutation.rs` line 96). -/
def illegalNodeIdMessage (node : String) : String :=
  "illegal node id \x60" ++ node ++ "\x60"

/-- The `pause` resolver (`deployment_mutation.rs` lines 27-38): run the
pause command, then answer with an empty ack carrying no warning. The
store component of the result is the state after the call. -/
def pause (s : Store) (d : Nat) : Store × Except GraphmanError EmptyResponse :=
  match pauseRun s d with
  | .error e => (s, .error e)
  | .ok s2 => (s2, .ok (EmptyResponse.new none))

/-- The `resume` resolver (`deployment_mutation.rs` lines 41-52). -/
def resume (s : Store) (d : Nat) : Store × Except GraphmanError EmptyResponse :=
  match resumeRun s d with
  | .error e => (s, .error e)
  | .ok s2 => (s2, .ok (EmptyResponse.new none))

/-- The `unassign` resolver (`deployment_mutation.rs` lines 74-85). -/
def unassign (s : Store) (d : Nat) : Store × Except GraphmanError EmptyResponse :=
  match unassignRun s d with
  | .error e => (s, .error e)
  | .ok s2 => (s2, .ok (EmptyResponse.new none))

/-- The `reassign` resolver (`deployment_mutation.rs` lines 88-106):
validate the node token, run the reassign command, then read the mirror
count of assignments on the node — note the source applies `?` to this
read, so a mirror read error is returned as a failure of the call while
the already committed mutation stands — and attach the advisory warning
exactly when the count is 1. -/
def reassign (s : Store) (m : Mirror) (d : Nat) (node : String) :
    Store × Except GraphmanError EmptyResponse :=
  match NodeId.new node with
  | none => (s, .error (.InvalidNodeId (illegalNodeIdMessage node)))
  | some n =>
    match reassignRun s d n with
    | .error e => (s, .error e)
    | .ok s2 =>
      match m.assignments n.token with
      | .error e => (s2, .error (.StoreError e))
      | .ok as =>
        if as.length = 1 then
          (s2, .ok (EmptyResponse.new (some (reassignWarning n.token))))
        else (s2, .ok (EmptyResponse.new none))

/-- The phases of one background restart execution. -/
inductive Phase where
  | Submitted
  | Pausing
  | Waiting
  | Resuming
  | Completed
  | Failed
deriving DecidableEq, Repr

/-- Modelled from the spec: the phase history of one background restart
unit of work — pause the deployment, and on success wait for the delay
and resume it; a pause failure ends the execution in `Failed` without
ever entering the waiting phase, and a resume failure after the wait also
ends in `Failed`. Returns the phases traversed in order together with the
store as the unit of work leaves it. -/
def restartTrace (s : Store) (d : Nat) : List Phase × Store :=
  match pauseRun s d with
  | .error _ => ([.Submitted, .Pausing, .Failed], s)
  | .ok s1 =>
    match resumeRun s1 d with
    | .error _ => ([.Submitted, .Pausing, .Waiting, .Resuming, .Failed], s1)
    | .ok s2 => ([.Submitted, .Pausing, .Waiting, .Resuming, .Completed], s2)

/-- One tracked background execution: its identity, target deployment,
requested delay, and the phases it traversed. -/
structure ExecutionRecord where
  execId : Nat
  deployment : Nat
  delaySeconds : Nat
  phases : List Phase
deriving DecidableEq, Repr

/-- Modelled from the spec: the background execution manager state — a
fresh-identity counter and the table of execution records keyed by
identity. -/
structure ExecutionStore where
  nextId : Nat
  records : List ExecutionRecord
deriving DecidableEq, Repr

/-- Modelled from the spec: `restart::run_in_background` — when the
deployment resolves, allocate a fresh execution identity and return it to
the caller; the background unit of work runs decoupled from the call and
its phase history is recorded against the identity, never surfaced to
the caller. The only submission-time failure is `NotFound`. -/
def restartRunInBackground (es : ExecutionStore) (s : Store) (d : Nat)
    (delaySeconds : Nat) :
    Except GraphmanError (Nat × ExecutionStore × Store) :=
  match storeFind s d with
  | none => .error .NotFound
  | some _ =>
    let i := es.nextId
    let t := restartTrace s d
    .ok (i, ⟨i + 1, ⟨i, d, delaySeconds, t.fst⟩ :: es.records⟩, t.snd)

/-- The `restart` resolver (`deployment_mutation.rs` lines 55-71): the
delay argument defaults to 20 seconds when the caller does not supply
one, then the call is handed to the background execution manager. -/
def restart (es : ExecutionStore) (s : Store) (d : Nat)
    (delaySeconds : Option Nat) :
    Except GraphmanError (Nat × ExecutionStore × Store) :=
  restartRunInBackground es s d (delaySeconds.getD 20)

/-- A tiny concrete store used to instantiate theorems: deployment 0 is
registered, unassigned and not paused. -/
def store0 : Store := [(0, ⟨none, false⟩)]

/-- A concrete store with deployment 0 paused. -/
def store0paused : Store := [(0, ⟨none, true⟩)]

/-- A concrete mirror whose reads always fail. -/
def errMirror : Mirror := ⟨fun _ => .error "mirror unavailable"⟩

/-- A concrete mirror that reports exactly one assignment on every node. -/
def oneMirror : Mirror := ⟨fun _ => .ok [0]⟩

/-- A concrete mirror that reports two assignments on every node. -/
def twoMirror : Mirror := ⟨fun _ => .ok [0, 1]⟩

/-- A concrete empty execution store. -/
def es0 : ExecutionStore := ⟨0, []⟩

theorem storeFind_storeSet_self (s : Store) (d : Nat) (st v : DeploymentState)
    (h : storeFind s d = some st) :
    storeFind (storeSet s d v) d = some v := by
  induction s with
  | nil => simp [storeFind] at h
  | cons hd tl ih =>
    obtain ⟨k, w⟩ := hd
    by_cases hk : k = d
    · simp [storeFind, storeSet, hk]
    · simp [storeFind, storeSet, hk] at h ⊢
      exact ih h

/-- C5: For every deployment that resolves and is not paused, `pauseRun`
succeeds and leaves it paused (so that a subsequent pause fails with
`AlreadyPaused`); for every deployment that is already paused, `pauseRun`
fails with `AlreadyPaused` rather than succeeding idempotently. -/
theorem pause_contract (s : Store) (d : Nat) (st : DeploymentState)
    (h : storeFind s d = some st) :
    (st.paused = false →
      pauseRun s d = .ok (storeSet s d ⟨st.assignedNode, true⟩) ∧
      storeFind (storeSet s d ⟨st.assignedNode, true⟩) d =
        some ⟨st.assignedNode, true⟩ ∧
      pauseRun (storeSet s d ⟨st.assignedNode, true⟩) d =
        .error .AlreadyPaused) ∧
    (st.paused = true → pauseRun s d = .error .AlreadyPaused) := by
  have hset := storeFind_storeSet_self s d st ⟨st.assignedNode, true⟩ h
  constructor
  · intro hp
    refine ⟨?_, hset, ?_⟩
    · simp [pauseRun, h, hp]
    · simp [pauseRun, hset]
  · intro hp
    simp [pauseRun, h, hp]

theorem pause_contract_witness :
    storeFind store0 0 = some ⟨none, false⟩ ∧
    pauseRun store0 0 = .ok (storeSet store0 0 ⟨none, true⟩) ∧
    pauseRun (storeSet store0 0 ⟨none, true⟩) 0 = .error .AlreadyPaused :=
  ⟨rfl,
   ((pause_contract store0 0 ⟨none, false⟩ rfl).1 rfl).1,
   ((pause_contract store0 0 ⟨none, false⟩ rfl).1 rfl).2.2⟩

/-- C6: For every deployment that resolves and is currently paused,
`resumeRun` succeeds and leaves it unpaused (so that a subsequent resume
fails with `NotPaused`); for every deployment that is not paused,
`resumeRun` fails with `NotPaused`. -/
theorem resume_contract (s : Store) (d : Nat) (st : DeploymentState)
    (h : storeFind s d = some st) :
    (st.paused = true →
      resumeRun s d = .ok (storeSet s d ⟨st.assignedNode, false⟩) ∧
      storeFind (storeSet s d ⟨st.assignedNode, false⟩) d =
        some ⟨st.assignedNode, false⟩ ∧
      resumeRun (storeSet s d ⟨st.assignedNode, false⟩) d =
        .error .NotPaused) ∧
    (st.paused = false → resumeRun s d = .error .NotPaused) := by
  have hset := storeFind_storeSet_self s d st ⟨st.assignedNode, false⟩ h
  constructor
  · intro hp
    refine ⟨?_, hset, ?_⟩
    · simp [resumeRun, h, hp]
    · simp [resumeRun, hset]
  · intro hp
    simp [resumeRun, h, hp]

theorem resume_contract_witness :
    storeFind store0paused 0 = some ⟨none, true⟩ ∧
    resumeRun store0paused 0 = .ok (storeSet store0paused 0 ⟨none, false⟩) ∧
    resumeRun (storeSet store0paused 0 ⟨none, false⟩) 0 = .error .NotPaused :=
  ⟨rfl,
   ((resume_contract store0paused 0 ⟨none, true⟩ rfl).1 rfl).1,
   ((resume_contract store0paused 0 ⟨none, true⟩ rfl).1 rfl).2.2⟩

/-- C7: `unassignRun` is idempotent — for every deployment that resolves
it succeeds whether or not the deployment is currently assigned, a second
call succeeds as well, and the deployment ends unassigned. -/
theorem unassign_idempotent (s : Store) (d : Nat) (st : DeploymentState)
    (h : storeFind s d = some st) :
    unassignRun s d = .ok (storeSet s d ⟨none, st.paused⟩) ∧
    unassignRun (storeSet s d ⟨none, st.paused⟩) d =
      .ok (storeSet (storeSet s d ⟨none, st.paused⟩) d ⟨none, st.paused⟩) ∧
    storeFind (storeSet (storeSet s d ⟨none, st.paused⟩) d ⟨none, st.paused⟩) d =
      some ⟨none, st.paused⟩ := by
  have h1 := storeFind_storeSet_self s d st ⟨none, st.paused⟩ h
  have h2 := storeFind_storeSet_self (storeSet s d ⟨none, st.paused⟩) d
    ⟨none, st.paused⟩ ⟨none, st.paused⟩ h1
  refine ⟨?_, ?_, h2⟩
  · simp [unassignRun, h]
  · simp [unassignRun, h1]

theorem unassign_idempotent_witness :
    storeFind store0 0 = some ⟨none, false⟩ ∧
    unassignRun store0 0 = .ok (storeSet store0 0 ⟨none, false⟩) ∧
    unassignRun (storeSet store0 0 ⟨none, false⟩) 0 =
      .ok (storeSet (storeSet store0 0 ⟨none, false⟩) 0 ⟨none, false⟩) ∧
    storeFind (storeSet (storeSet store0 0 ⟨none, false⟩) 0 ⟨none, false⟩) 0 =
      some ⟨none, false⟩ :=
  ⟨rfl,
   (unassign_idempotent store0 0 ⟨none, false⟩ rfl).1,
   (unassign_idempotent store0 0 ⟨none, false⟩ rfl).2.1,
   (unassign_idempotent store0 0 ⟨none, false⟩ rfl).2.2⟩

/-- C8: For every reassign call whose node token fails syntactic
validation, the call fails with `InvalidNodeId`, the message includes the
offending token, and no assignment-state mutation is performed — the
result is independent of the mirror and of whether the deployment
resolves, since validation runs before any store access. -/
theorem reassign_invalid_node_id (s : Store) (m : Mirror) (d : Nat)
    (node : String) (h : validNodeToken node = false) :
    reassign s m d node =
      (s, .error (.InvalidNodeId (illegalNodeIdMessage node))) ∧
    ∃ pre post, illegalNodeIdMessage node = pre ++ node ++ post := by
  refine ⟨?_, "illegal node id \x60", "\x60", rfl⟩
  simp [reassign, NodeId.new, h]

theorem reassign_invalid_node_id_witness :
    validNodeToken "" = false ∧
    reassign store0 oneMirror 0 "" =
      (store0, .error (.InvalidNodeId (illegalNodeIdMessage ""))) ∧
    ∃ pre post, illegalNodeIdMessage "" = pre ++ "" ++ post :=
  ⟨rfl,
   (reassign_invalid_node_id store0 oneMirror 0 "" rfl).1,
   (reassign_invalid_node_id store0 oneMirror 0 "" rfl).2⟩

/-- C9: For every reassign call whose node token validates and whose
deployment resolves, the assignment mutation commits before the mirror
read runs, and the warning computation never rolls it back: whatever the
mirror does (error or any count), the resulting store assigns the
deployment to the requested node. -/
theorem reassign_commit_independent_of_warning (s : Store) (d : Nat)
    (node : String) (n : NodeId) (st : DeploymentState)
    (hn : NodeId.new node = some n) (h : storeFind s d = some st) :
    ∀ m : Mirror,
      (reassign s m d node).fst = storeSet s d ⟨some n.token, st.paused⟩ ∧
      storeFind (reassign s m d node).fst d =
        some ⟨some n.token, st.paused⟩ := by
  intro m
  have hr : reassignRun s d n = .ok (storeSet s d ⟨some n.token, st.paused⟩) := by
    simp [reassignRun, h]
  have hfst : (reassign s m d node).fst = storeSet s d ⟨some n.token, st.paused⟩ := by
    rcases hm : m.assignments n.token with e | as
    · simp [reassign, hn, hr, hm]
    · by_cases hl : as.length = 1 <;> simp [reassign, hn, hr, hm, hl]
  exact ⟨hfst, hfst ▸ storeFind_storeSet_self s d st ⟨some n.token, st.paused⟩ h⟩

theorem reassign_commit_independent_of_warning_witness :
    NodeId.new "node_a" = some ⟨"node_a"⟩ ∧
    storeFind store0 0 = some ⟨none, false⟩ ∧
    (reassign store0 errMirror 0 "node_a").fst =
      storeSet store0 0 ⟨some "node_a", false⟩ ∧
    storeFind (reassign store0 errMirror 0 "node_a").fst 0 =
      some ⟨some "node_a", false⟩ :=
  ⟨rfl, rfl,
   (reassign_commit_independent_of_warning store0 0 "node_a" ⟨"node_a"⟩
      ⟨none, false⟩ rfl rfl errMirror).1,
   (reassign_commit_independent_of_warning store0 0 "node_a" ⟨"node_a"⟩
      ⟨none, false⟩ rfl rfl errMirror).2⟩

/-- C1 as stated is false: here is a reassign call whose assignment
mutation succeeds (the resulting store carries the new assignment) and
whose mirror read errors, yet the call does not return success — the
mirror read error is propagated as a failure of the call. -/
theorem reassign_mirror_error_propagates_cex :
    (reassign store0 errMirror 0 "node_a").fst =
      [(0, ⟨some "node_a", false⟩)] ∧
    (reassign store0 errMirror 0 "node_a").snd =
      .error (.StoreError "mirror unavailable") :=
  ⟨rfl, rfl⟩

/-- C1 amended: for every reassign call whose assignment mutation
succeeds, an error returned by the mirror read used to compute the
advisory warning is propagated as a failure of the reassign call (wrapped
verbatim as a store error), while the already committed assignment is not
rolled back. -/
theorem reassign_mirror_error_propagates (s : Store) (m : Mirror) (d : Nat)
    (node : String) (n : NodeId) (s2 : Store) (e : String)
    (hn : NodeId.new node = some n) (hr : reassignRun s d n = .ok s2)
    (hm : m.assignments n.token = .error e) :
    reassign s m d node = (s2, .error (.StoreError e)) := by
  simp [reassign, hn, hr, hm]

theorem reassign_mirror_error_propagates_witness :
    NodeId.new "node_a" = some ⟨"node_a"⟩ ∧
    reassignRun store0 0 ⟨"node_a"⟩ = .ok [(0, ⟨some "node_a", false⟩)] ∧
    errMirror.assignments "node_a" = .error "mirror unavailable" ∧
    reassign store0 errMirror 0 "node_a" =
      ([(0, ⟨some "node_a", false⟩)], .error (.StoreError "mirror unavailable")) :=
  ⟨rfl, rfl, rfl,
   reassign_mirror_error_propagates store0 errMirror 0 "node_a" ⟨"node_a"⟩
     [(0, ⟨some "node_a", false⟩)] "mirror unavailable" rfl rfl rfl⟩

/-- C2: For every successful reassign (token validates, mutation
succeeds, mirror read succeeds), the response carries the warning string
— which mentions the node — exactly when the mirror count of assignments
on the node is 1, and carries no warning otherwise. -/
theorem reassign_warning_iff_count_one (s : Store) (m : Mirror) (d : Nat)
    (node : String) (n : NodeId) (s2 : Store) (as : List Nat)
    (hn : NodeId.new node = some n) (hr : reassignRun s d n = .ok s2)
    (hm : m.assignments n.token = .ok as) :
    reassign s m d node =
      (s2, .ok (EmptyResponse.new
        (if as.length = 1 then some (reassignWarning n.token) else none))) ∧
    ∃ pre post, reassignWarning n.token = pre ++ n.token ++ post := by
  refine ⟨?_, "warning: this is the only deployment assigned to \x27",
    "\x27. Are you sure it is spelled correctly?", rfl⟩
  by_cases hl : as.length = 1 <;> simp [reassign, hn, hr, hm, hl]

theorem reassign_warning_iff_count_one_witness :
    NodeId.new "node_a" = some ⟨"node_a"⟩ ∧
    reassignRun store0 0 ⟨"node_a"⟩ = .ok [(0, ⟨some "node_a", false⟩)] ∧
    oneMirror.assignments "node_a" = .ok [0] ∧
    reassign store0 oneMirror 0 "node_a" =
      ([(0, ⟨some "node_a", false⟩)], .ok (EmptyResponse.new
        (if ([0] : List Nat).length = 1 then some (reassignWarning "node_a")
         else none))) ∧
    ∃ pre post, reassignWarning "node_a" = pre ++ "node_a" ++ post :=
  ⟨rfl, rfl, rfl,
   (reassign_warning_iff_count_one store0 oneMirror 0 "node_a" ⟨"node_a"⟩
      [(0, ⟨some "node_a", false⟩)] [0] rfl rfl rfl).1,
   (reassign_warning_iff_count_one store0 oneMirror 0 "node_a" ⟨"node_a"⟩
      [(0, ⟨some "node_a", false⟩)] [0] rfl rfl rfl).2⟩

/-- C3: For every background restart execution whose initial pause step
fails (the deployment is already paused), the execution never enters the
waiting phase, never invokes resume, and ends in a failed phase recorded
against its execution identity in the execution table. -/
theorem restart_pause_failure_skips_waiting (es : ExecutionStore) (s : Store)
    (d delaySeconds : Nat) (st : DeploymentState)
    (h : storeFind s d = some st) (hp : st.paused = true) :
    restartRunInBackground es s d delaySeconds =
      .ok (es.nextId,
        ⟨es.nextId + 1,
         ⟨es.nextId, d, delaySeconds,
          [.Submitted, .Pausing, .Failed]⟩ :: es.records⟩, s) ∧
    Phase.Waiting ∉ [Phase.Submitted, Phase.Pausing, Phase.Failed] ∧
    Phase.Resuming ∉ [Phase.Submitted, Phase.Pausing, Phase.Failed] ∧
    [Phase.Submitted, Phase.Pausing, Phase.Failed].getLast? =
      some Phase.Failed := by
  have hpause : pauseRun s d = .error .AlreadyPaused := by
    simp [pauseRun, h, hp]
  have htrace : restartTrace s d = ([.Submitted, .Pausing, .Failed], s) := by
    simp [restartTrace, hpause]
  refine ⟨?_, by decide, by decide, rfl⟩
  simp [restartRunInBackground, h, htrace]

theorem restart_pause_failure_skips_waiting_witness :
    storeFind store0paused 0 = some ⟨none, true⟩ ∧
    restartRunInBackground es0 store0paused 0 5 =
      .ok (es0.nextId,
        ⟨es0.nextId + 1,
         ⟨es0.nextId, 0, 5, [.Submitted, .Pausing, .Failed]⟩ :: es0.records⟩,
        store0paused) ∧
    Phase.Waiting ∉ [Phase.Submitted, Phase.Pausing, Phase.Failed] ∧
    Phase.Resuming ∉ [Phase.Submitted, Phase.Pausing, Phase.Failed] :=
  ⟨rfl,
   (restart_pause_failure_skips_waiting es0 store0paused 0 5 ⟨none, true⟩
      rfl rfl).1,
   (restart_pause_failure_skips_waiting es0 store0paused 0 5 ⟨none, true⟩
      rfl rfl).2.1,
   (restart_pause_failure_skips_waiting es0 store0paused 0 5 ⟨none, true⟩
      rfl rfl).2.2.1⟩

/-- C4: For every restart call on a resolvable deployment, submission
succeeds and returns the fresh execution identity (the current counter,
distinct from every recorded identity) regardless of what the background
pause/delay/resume trace does; an omitted delay defaults to 20 seconds in
the record; and the only error any restart call can return is `NotFound`,
reported at submission time when the deployment does not resolve — never
a post-submission pause or resume failure. -/
theorem restart_submission_contract (es : ExecutionStore) (s : Store)
    (d : Nat) (st : DeploymentState) (h : storeFind s d = some st)
    (hw : ∀ r ∈ es.records, r.execId < es.nextId) :
    restart es s d none =
      .ok (es.nextId,
        ⟨es.nextId + 1,
         ⟨es.nextId, d, 20, (restartTrace s d).fst⟩ :: es.records⟩,
        (restartTrace s d).snd) ∧
    (∀ r ∈ es.records, r.execId ≠ es.nextId) ∧
    (∀ es2 s2 d2 dl e, restart es2 s2 d2 dl = .error e →
      e = GraphmanError.NotFound ∧ storeFind s2 d2 = none) := by
  refine ⟨?_, ?_, ?_⟩
  · simp [restart, restartRunInBackground, h]
  · intro r hr
    exact Nat.ne_of_lt (hw r hr)
  · intro es2 s2 d2 dl e he
    rcases hf : storeFind s2 d2 with _ | st2
    · simp [restart, restartRunInBackground, hf] at he
      exact ⟨he.symm, rfl⟩
    · simp [restart, restartRunInBackground, hf] at he

theorem restart_submission_contract_witness :
    storeFind store0 0 = some ⟨none, false⟩ ∧
    (∀ r ∈ es0.records, r.execId < es0.nextId) ∧
    restart es0 store0 0 none =
      .ok (es0.nextId,
        ⟨es0.nextId + 1,
         ⟨es0.nextId, 0, 20, (restartTrace store0 0).fst⟩ :: es0.records⟩,
        (restartTrace store0 0).snd) ∧
    (∀ r ∈ es0.records, r.execId ≠ es0.nextId) ∧
    (∀ es2 s2 d2 dl e, restart es2 s2 d2 dl = .error e →
      e = GraphmanError.NotFound ∧ storeFind s2 d2 = none) :=
  ⟨rfl, by simp [es0],
   (restart_submission_contract es0 store0 0 ⟨none, false⟩ rfl
      (by simp [es0])).1,
   (restart_submission_contract es0 store0 0 ⟨none, false⟩ rfl
      (by simp [es0])).2.1,
   (restart_submission_contract es0 store0 0 ⟨none, false⟩ rfl
      (by simp [es0])).2.2⟩

/-- C10: Every successful pause, resume and unassign call answers with an
empty ack whose optional warning field is absent. -/
theorem empty_ack_no_warning :
    (∀ s d s2 r, pause s d = (s2, Except.ok r) → r.warning = none) ∧
    (∀ s d s2 r, resume s d = (s2, Except.ok r) → r.warning = none) ∧
    (∀ s d s2 r, unassign s d = (s2, Except.ok r) → r.warning = none) := by
  refine ⟨?_, ?_, ?_⟩
  · intro s d s2 r h
    rcases hp : pauseRun s d with e | s3 <;> simp [pause, hp] at h
    rw [← h.2]
    rfl
  · intro s d s2 r h
    rcases hp : resumeRun s d with e | s3 <;> simp [resume, hp] at h
    rw [← h.2]
    rfl
  · intro s d s2 r h
    rcases hp : unassignRun s d with e | s3 <;> simp [unassign, hp] at h
    rw [← h.2]
    rfl

theorem empty_ack_no_warning_witness :
    pause store0 0 = (storeSet store0 0 ⟨none, true⟩,
      Except.ok (EmptyResponse.new none)) ∧
    (EmptyResponse.new none).warning = none :=
  ⟨rfl, empty_ack_no_warning.1 store0 0 (storeSet store0 0 ⟨none, true⟩)
    (EmptyResponse.new none) rfl⟩

end Graphman
